import Mathlib

/-!
Shallow embedding of the identity model and tiered storage engine of the
`asmov/common` dataset crate (`src/dataset`), together with theorems settling
the specification claims about it.

Modelling conventions:
* `u64` serials are modelled as `Nat` with explicit `U64_MIN`/`U64_MAX`
  sentinel constants; the code performs no arithmetic on serials (only
  equality tests), so no wrap-around modelling is required.
* Rust panics (`panic!`, `unwrap`, `unimplemented!`, `todo!`) are modelled
  explicitly: functions that can panic return `Except String _` or the
  `Outcome` type below, with the panic message preserved.
* `#[cfg(debug_assertions)]` arms are modelled by an explicit `dbg : Bool`
  parameter: `dbg = true` is a debug build, `dbg = false` a release build.
* Rust `Hash` implementations are modelled by the token stream they feed to
  the hasher (`hashStream`); two values hash equally (for every hasher) iff
  their streams are equal.
-/

/-- Serial numbers are `u64` in the source; modelled as `Nat` (no arithmetic
is performed on them, only equality comparison against the sentinels). -/
abbrev Serial := Nat

/-- `u64::MIN`, the NONE sentinel. -/
def U64_MIN : Serial := 0

/-- `u64::MAX`, the RESERVED sentinel. -/
def U64_MAX : Serial := 2 ^ 64 - 1

/-- `src/dataset/src/model/id.rs`: the `ID` enum. -/
inductive ID where
  | Local (s : Serial)
  | Authorative (s : Serial)
  | Mutual (l a : Serial)
deriving DecidableEq, Repr

/-- `impl PartialEq<ID> for ID` (`id.rs` lines 33-46), arm for arm. -/
def ID.eqID : ID → ID → Bool
  | .Local a, .Local b => a == b
  | .Authorative a, .Authorative b => a == b
  | .Mutual a aa, .Mutual b bb => a == b || aa == bb
  | .Local a, .Mutual b _ => a == b
  | .Authorative a, .Mutual _ b => a == b
  | .Mutual a _, .Local b => a == b
  | .Mutual _ a, .Authorative b => a == b
  | _, _ => false

/-- `impl Hash for ID` (`id.rs` lines 48-56): the token stream fed to the
hasher. `Local` feeds tag `1` then its serial; `Authorative` feeds tag `2`
then its serial; `Mutual` feeds tag `2` then its *authoritative* serial. -/
def ID.hashStream : ID → List Nat
  | .Local s => [1, s]
  | .Authorative s => [2, s]
  | .Mutual _ a => [2, a]

/-- `ID::authorative` (`id.rs`): the authoritative serial, if available. -/
def ID.authorative : ID → Option Serial
  | .Authorative s => some s
  | .Mutual _ a => some a
  | _ => none

/-- `ID::local` (`id.rs`): the local serial, if available (`local` is a Lean
keyword, hence the name `localSerial`). -/
def ID.localSerial : ID → Option Serial
  | .Local s => some s
  | .Mutual l _ => some l
  | _ => none

/-- `ID::best` (`id.rs`): the best serial, preferring authoritative. -/
def ID.best : ID → Serial
  | .Local s => s
  | .Authorative s => s
  | .Mutual _ a => a

/-- The Rust `u64 as i64` cast. -/
def toI64 (n : Nat) : Int :=
  if n < 2 ^ 63 then (n : Int) else (n : Int) - 2 ^ 64

/-- `ID::sql` (`id.rs`): `self.best() as i64`. -/
def ID.sql (id : ID) : Int :=
  toI64 id.best

/-- `ID::valid` (`id.rs` lines 91-106). The `#[cfg(debug_assertions)]` guard
arm panics (modelled as `Except.error`) when a `Mutual` ID has a sentinel
component; in a release build (`dbg = false`) that arm is compiled out and
`Mutual` is unconditionally `true`. -/
def ID.valid (dbg : Bool) : ID → Except String Bool
  | .Authorative s =>
      if s = U64_MIN then Except.ok false
      else if s = U64_MAX then Except.ok false
      else Except.ok true
  | .Local s =>
      if s = U64_MIN then Except.ok false
      else if s = U64_MAX then Except.ok false
      else Except.ok true
  | .Mutual l a =>
      if dbg = true ∧ (l = U64_MIN ∨ l = U64_MAX ∨ a = U64_MIN ∨ a = U64_MAX)
      then Except.error "Mutual ID should have valid local and authorative IDs"
      else Except.ok true

/-- `OptionID` (`id.rs` lines 24-31). -/
inductive OptionID where
  | none
  | reserved
  | some (id : ID)
deriving DecidableEq, Repr

/-- `ID::into_option` (`id.rs` lines 126-141), with the same
`#[cfg(debug_assertions)]` panic arm as `ID::valid`. -/
def ID.into_option (dbg : Bool) : ID → Except String OptionID
  | .Authorative s =>
      if s = U64_MIN then Except.ok OptionID.none
      else if s = U64_MAX then Except.ok OptionID.reserved
      else Except.ok (OptionID.some (.Authorative s))
  | .Local s =>
      if s = U64_MIN then Except.ok OptionID.none
      else if s = U64_MAX then Except.ok OptionID.reserved
      else Except.ok (OptionID.some (.Local s))
  | .Mutual l a =>
      if dbg = true ∧ (l = U64_MIN ∨ l = U64_MAX ∨ a = U64_MIN ∨ a = U64_MAX)
      then Except.error "Mutual ID should have valid local and authorative IDs"
      else Except.ok (OptionID.some (.Mutual l a))

theorem ID.eqID_refl (id : ID) : ID.eqID id id = true := by
  cases id <;> simp [ID.eqID]

/-- Claim C3 (confirmed): for all serials `l`, `a`, `x`, the source `eq`
makes `Mutual(l, a) == Authorative(a)` and `Mutual(l, a) == Local(l)` hold,
while `Local(x) == Authorative(x)` does not hold. -/
theorem c3_id_equality_reconciliation (l a x : Serial) :
    ID.eqID (.Mutual l a) (.Authorative a) = true
    ∧ ID.eqID (.Mutual l a) (.Local l) = true
    ∧ ID.eqID (.Local x) (.Authorative x) = false := by
  refine ⟨?_, ?_, rfl⟩ <;> simp [ID.eqID]

/-- Claim C10 (confirmed): ID equality is not transitive. With
`x = Local(5)`, `y = Mutual(5, 9)`, `z = Mutual(7, 9)` we have `x == y`
(shared local serial) and `y == z` (shared authoritative serial) but
`x != z`. -/
theorem c10_eq_not_transitive :
    ID.eqID (.Local 5) (.Mutual 5 9) = true
    ∧ ID.eqID (.Mutual 5 9) (.Mutual 7 9) = true
    ∧ ID.eqID (.Local 5) (.Mutual 7 9) = false := by
  decide

/-- Claim C4, counterexample: `Local(5) == Mutual(5, 9)` holds, but the two
hash by different streams (`[1, 5]` vs `[2, 9]`): equality does NOT imply
hash equality, because `Mutual` hashes only its authoritative serial with
the `Authorative` tag. -/
theorem c4_eq_hash_counterexample :
    ID.eqID (.Local 5) (.Mutual 5 9) = true
    ∧ ID.hashStream (.Local 5) ≠ ID.hashStream (.Mutual 5 9) := by
  decide

/-- Claim C4 (corrected): for equal IDs, the hashes agree exactly when the
two IDs agree on their authoritative side. In particular an
`Authorative`/`Mutual` pair sharing the authoritative serial hash equally,
but a `Local`/`Mutual` pair sharing only the local serial does not. -/
theorem c4_eq_hash_amended (x y : ID) (h : ID.eqID x y = true) :
    ID.hashStream x = ID.hashStream y ↔ ID.authorative x = ID.authorative y := by
  cases x <;> cases y <;>
    simp_all [ID.eqID, ID.hashStream, ID.authorative]

theorem c4_eq_hash_amended_witness :
    ID.eqID (.Authorative 9) (.Mutual 5 9) = true
    ∧ (ID.hashStream (.Authorative 9) = ID.hashStream (.Mutual 5 9)
        ↔ ID.authorative (.Authorative 9) = ID.authorative (.Mutual 5 9)) :=
  ⟨by decide, c4_eq_hash_amended (.Authorative 9) (.Mutual 5 9) (by decide)⟩

/-- Claim C7, counterexample: in a debug build (`dbg = true`),
`ID::valid` on `Mutual(0, 5)` — a `Mutual` ID whose local component is the
NONE sentinel — panics rather than returning a boolean, refuting "returns a
boolean (never fails) for every ID value, including a Mutual ID whose
component serials are sentinels". -/
theorem c7_valid_counterexample :
    ID.valid true (.Mutual 0 5)
      = Except.error "Mutual ID should have valid local and authorative IDs" := by
  rfl

/-- Claim C7 (corrected): in a release build `ID::valid` is total and
returns `false` exactly when the serial of a `Local` or `Authorative` ID is
the NONE (`u64::MIN`) or RESERVED (`u64::MAX`) sentinel; in a debug build it
panics exactly on a `Mutual` ID one of whose component serials is a
sentinel, and otherwise behaves identically. -/
theorem c7_valid_amended (id : ID) :
    (∃ b, ID.valid false id = Except.ok b)
    ∧ (ID.valid false id = Except.ok false
        ↔ ∃ s, (id = ID.Local s ∨ id = ID.Authorative s) ∧ (s = U64_MIN ∨ s = U64_MAX))
    ∧ ((∃ m, ID.valid true id = Except.error m)
        ↔ ∃ l a, id = ID.Mutual l a
            ∧ (l = U64_MIN ∨ l = U64_MAX ∨ a = U64_MIN ∨ a = U64_MAX)) := by
  cases id <;> simp only [ID.valid] <;> split_ifs <;> simp_all
  exact ⟨_, _, ⟨rfl, rfl⟩, by assumption⟩

/-- Timestamps (`chrono::DateTime<Utc>`) are compared and hashed only;
modelled as `Int`. -/
abbrev Timestamp := Int

/-- `pub type Hashcode = u64` (`meta.rs`). -/
abbrev Hashcode := Nat

/-- `src/dataset/src/model/meta.rs` lines 13-26: the `Meta` struct. -/
structure Meta where
  id : ID
  user_id : ID
  time_created : Timestamp
  time_modified : Timestamp
  hashcode : Hashcode
deriving DecidableEq, Repr

/-- The `derivative`-derived `PartialEq` for `Meta`: compares every field
with its own `PartialEq` (so `id`/`user_id` use the custom ID equality),
except `hashcode`, which carries `#[derivative(PartialEq = "ignore")]`.
The timestamps carry no such attribute and ARE compared. -/
def Meta.eqMeta (a b : Meta) : Bool :=
  ID.eqID a.id b.id
    && ID.eqID a.user_id b.user_id
    && a.time_created == b.time_created
    && a.time_modified == b.time_modified

/-- The `derivative`-derived `Hash` for `Meta`: feeds every field to the
hasher in declaration order except `hashcode`
(`#[derivative(Hash = "ignore")]`). The timestamps ARE hashed. -/
def Meta.hashStream (m : Meta) : List Int :=
  (ID.hashStream m.id).map Int.ofNat
    ++ (ID.hashStream m.user_id).map Int.ofNat
    ++ [m.time_created, m.time_modified]

/-- Claim C5, counterexample: two `Meta` values that agree on all fields
except `hashcode`, `time_created` and `time_modified` (here: same ids,
`time_created` 0 vs 1, `time_modified` 0 vs 2, `hashcode` 0 vs 7) are NOT
equal under the derived equality — the timestamps are not excluded. -/
theorem c5_meta_eq_counterexample :
    Meta.eqMeta
      { id := ID.Local 5, user_id := ID.Local 1,
        time_created := 0, time_modified := 0, hashcode := 0 }
      { id := ID.Local 5, user_id := ID.Local 1,
        time_created := 1, time_modified := 2, hashcode := 7 } = false := by
  decide

/-- Claim C5 (corrected): only `hashcode` is excluded from the derived
equality and hash of `Meta`; two `Meta` values that agree on all fields
including both timestamps — with `hashcode` left arbitrary — compare equal
and hash equally. -/
theorem c5_meta_eq_amended (m1 m2 : Meta)
    (hid : m1.id = m2.id) (huid : m1.user_id = m2.user_id)
    (htc : m1.time_created = m2.time_created)
    (htm : m1.time_modified = m2.time_modified) :
    Meta.eqMeta m1 m2 = true ∧ Meta.hashStream m1 = Meta.hashStream m2 := by
  constructor
  · simp [Meta.eqMeta, hid, huid, htc, htm, ID.eqID_refl]
  · simp [Meta.hashStream, hid, huid, htc, htm]

theorem c5_meta_eq_amended_witness :
    Meta.eqMeta
      { id := ID.Local 5, user_id := ID.Local 1,
        time_created := 3, time_modified := 4, hashcode := 0 }
      { id := ID.Local 5, user_id := ID.Local 1,
        time_created := 3, time_modified := 4, hashcode := 99 } = true
    ∧ Meta.hashStream
      { id := ID.Local 5, user_id := ID.Local 1,
        time_created := 3, time_modified := 4, hashcode := 0 }
      = Meta.hashStream
      { id := ID.Local 5, user_id := ID.Local 1,
        time_created := 3, time_modified := 4, hashcode := 99 } :=
  c5_meta_eq_amended _ _ rfl rfl rfl rfl

/-- Dataset errors (`src/dataset/src/error.rs` lines 4-8): the `Error` enum
has exactly one variant, `Database(String)`. -/
inductive Error where
  | Database (msg : String)
deriving DecidableEq, Repr

/-- `pub type Result<T> = std::result::Result<T, Error>` (`error.rs`). -/
abbrev DResult (α : Type) := Except Error α

/-- Outcome of a call that may panic (Rust `panic!` / `unwrap` /
`unimplemented!`) instead of returning a `Result`. -/
inductive Outcome (α : Type) where
  | panics (msg : String)
  | result (r : DResult α)

/-- The in-memory tier's backing store: an `FxHashMap<ID, Model>`, modelled
as an association list. A hash-map lookup locates the bucket by the key's
hash and compares keys within it by `eq`, so a stored key matches a probe
exactly when the hash streams agree AND the custom `eq` holds. -/
structure MemoryStore (α : Type) where
  entries : List (ID × α)

/-- Key match used by the `FxHashMap` model: same hash and `eq`-equal. -/
def hashEqKey (k k' : ID) : Bool :=
  ID.hashStream k == ID.hashStream k' && ID.eqID k k'

/-- `HashMap::get` on the model store. -/
def mapGet {α : Type} (l : List (ID × α)) (k : ID) : Option α :=
  (l.find? (fun kv => hashEqKey k kv.1)).map (fun kv => kv.2)

/-- `HashMap::insert` on the model store: replaces the value of the first
matching entry (keeping the stored key, as Rust does), otherwise appends. -/
def mapInsert {α : Type} (l : List (ID × α)) (k : ID) (v : α) : List (ID × α) :=
  match l with
  | [] => [(k, v)]
  | (k', v') :: rest =>
      if hashEqKey k k' then (k', v) :: rest
      else (k', v') :: mapInsert rest k v

theorem hashEqKey_refl (k : ID) : hashEqKey k k = true := by
  simp [hashEqKey, ID.eqID_refl]

theorem mapGet_mapInsert_self {α : Type} (l : List (ID × α)) (k : ID) (v : α) :
    mapGet (mapInsert l k v) k = some v := by
  induction l with
  | nil => simp [mapInsert, mapGet, List.find?, hashEqKey_refl]
  | cons hd tl ih =>
      by_cases h : hashEqKey k hd.1 = true
      · simp [mapInsert, mapGet, List.find?, h]
      · simp only [mapInsert]
        rw [if_neg (by simp [h])]
        simpa [mapGet, List.find?, h] using ih

/-- `imprint_memory_dataset_for_model` (`imprint.rs` lines 136-138):
`dataset_get` returns `Ok(map.get(&id))`. -/
def memory_dataset_get {α : Type} (ds : MemoryStore α) (id : ID) :
    DResult (Option α) :=
  Except.ok (mapGet ds.entries id)

/-- `imprint_memory_dataset_for_model` (`imprint.rs` lines 144-148):
`dataset_put` inserts keyed by the entity's own `Meta.id` and returns that
id. The Rust method takes `&mut` and returns `Result<ID>`; modelled as
explicit state passing: (returned result, updated store). `meta` is the
model type's `Meta` accessor. -/
def memory_dataset_put {α : Type} (meta : α → Meta) (ds : MemoryStore α)
    (model : α) : DResult ID × MemoryStore α :=
  let id := (meta model).id
  (Except.ok id, ⟨mapInsert ds.entries id model⟩)

/-- The concrete entity type of `src/dataset/tests/implementation.rs`
(`ImplModel`): a `Meta` plus payload fields. -/
structure ImplModel where
  meta : Meta
  text : String
  num : Nat
  toggle : Bool
  timestamp : Timestamp
deriving DecidableEq, Repr

/-- Claim C8 (confirmed): for every entity `e` and every Memory-tier store,
`put(e)` returns `Ok` of `e`'s own `Meta.id` unchanged, and a subsequent
`get(e.id())` on the updated store returns exactly `e`. -/
theorem c8_memory_put_get_roundtrip (ds : MemoryStore ImplModel) (e : ImplModel) :
    (memory_dataset_put ImplModel.meta ds e).1 = Except.ok e.meta.id
    ∧ memory_dataset_get (memory_dataset_put ImplModel.meta ds e).2 e.meta.id
        = Except.ok (some e) := by
  refine ⟨rfl, ?_⟩
  simp [memory_dataset_get, memory_dataset_put, mapGet_mapInsert_self]

/-- `sqlx::Error` as seen by `standard_get`: either `RowNotFound` or any
other driver error, carrying its display message. -/
inductive SqlxError where
  | rowNotFound
  | other (msg : String)
deriving DecidableEq, Repr

/-- Result of `fetch_one` for the entity type `α`. -/
inductive FetchResult (α : Type) where
  | row (m : α)
  | failure (e : SqlxError)

/-- The pooled connection's behaviour, abstracted: given the query string
and the bound id value, what does `fetch_one` return. -/
abbrev FetchOracle (α : Type) := String → Int → FetchResult α

/-- The shared tail of both `standard_get` implementations: run the query
with the bound value and map the driver result (`Ok(m)` to `Ok(Some(m))`,
`RowNotFound` to `Ok(None)`, anything else to `Err(Error::Database(msg))`). -/
def runFetch {α : Type} (fetch : FetchOracle α) (q : String) (bound : Int) :
    Outcome (Option α) :=
  match fetch q bound with
  | .row m => .result (Except.ok (some m))
  | .failure .rowNotFound => .result (Except.ok none)
  | .failure (.other e) => .result (Except.error (Error.Database e))

/-- `SqliteDataset::standard_get` (`src/dataset/src/driver/sqlite.rs` lines
24-54). `localFlag` is the dataset's `local` field (hardcoded `true` by
`SqliteDataset::new`). The query is built from the schema name and the id's
variant; the bound value is `id.sql()`. Panics are `Outcome.panics`. -/
def sqliteStandardGet {α : Type} (dbg localFlag : Bool) (fetch : FetchOracle α)
    (table : String) (id : ID) : Outcome (Option α) :=
  match ID.into_option dbg id with
  | Except.error m => .panics m
  | Except.ok OptionID.none => .panics "Cannot SQLite SELECT for an invalid ID"
  | Except.ok (OptionID.some (ID.Authorative _))
  | Except.ok (OptionID.some (ID.Mutual _ _)) =>
      runFetch fetch ("SELECT * FROM " ++ table ++ " WHERE id = ? LIMIT 1") (ID.sql id)
  | Except.ok (OptionID.some (ID.Local _)) =>
      if localFlag then
        runFetch fetch ("SELECT * FROM " ++ table ++ " WHERE local_id = ? LIMIT 1") (ID.sql id)
      else .panics "Cannot SQLite SELECT for a local ID from a non-local dataset"
  | Except.ok OptionID.reserved => .panics "Cannot SQLite INSERT or UPDATE for a reserved ID"

/-- `PostgresDataset::standard_get` (`src/dataset/src/driver/postgres.rs`
lines 26-52). `authFlag` is the dataset's `authorative` field (hardcoded
`true` by `PostgresDataset::new`). Unlike SQLite, the field name is chosen
and the matched serial itself (`id as i64` / `local_id as i64`) is bound. -/
def postgresStandardGet {α : Type} (dbg authFlag : Bool) (fetch : FetchOracle α)
    (table : String) (id : ID) : Outcome (Option α) :=
  match ID.into_option dbg id with
  | Except.error m => .panics m
  | Except.ok OptionID.none => .panics "Cannot PostgreSQL SELECT for an invalid ID"
  | Except.ok (OptionID.some (ID.Authorative a))
  | Except.ok (OptionID.some (ID.Mutual _ a)) =>
      runFetch fetch ("SELECT * FROM " ++ table ++ " WHERE id = ? LIMIT 1") (toI64 a)
  | Except.ok (OptionID.some (ID.Local l)) =>
      if authFlag then .panics "Cannot PostgreSQL SELECT for a local ID from an authorative dataset"
      else runFetch fetch ("SELECT * FROM " ++ table ++ " WHERE local_id = ? LIMIT 1") (toI64 l)
  | Except.ok OptionID.reserved => .panics "Cannot PostgreSQL INSERT or UPDATE for a reserved ID"

/-- Claim C6 (confirmed): for every valid id, `standard_get` maps a
row-not-found driver result to `Ok(None)` (a miss is never an error) and
any other driver error to `Err(Error::Database(msg))` with the driver's
message. Holds for SQLite (whose `local` flag is hardcoded `true`, so every
valid id variant reaches the query) and for PostgreSQL on every id carrying
an authoritative serial (PostgreSQL's `authorative` flag is hardcoded
`true`, so a bare `Local` id fails fast before any query runs — spec §4.3's
caller contract violation — and the claim's premise "whose underlying query
yields ..." is unsatisfiable there). -/
theorem c6_standard_get_miss_and_error_mapping {α : Type} (id : ID)
    (table msg : String) (hvalid : ID.valid false id = Except.ok true) :
    (sqliteStandardGet (α := α) false true
        (fun _ _ => .failure .rowNotFound) table id = .result (Except.ok none))
    ∧ (sqliteStandardGet (α := α) false true
        (fun _ _ => .failure (.other msg)) table id
          = .result (Except.error (Error.Database msg)))
    ∧ ((ID.authorative id).isSome →
        (postgresStandardGet (α := α) false true
            (fun _ _ => .failure .rowNotFound) table id = .result (Except.ok none))
        ∧ (postgresStandardGet (α := α) false true
            (fun _ _ => .failure (.other msg)) table id
              = .result (Except.error (Error.Database msg)))) := by
  have hmm : U64_MAX ≠ U64_MIN := by decide
  cases id with
  | Local s =>
      have h1 : s ≠ U64_MIN := by
        intro h; rw [h] at hvalid; simp [ID.valid] at hvalid
      have h2 : s ≠ U64_MAX := by
        intro h; rw [h] at hvalid; simp [ID.valid, hmm] at hvalid
      simp [sqliteStandardGet, postgresStandardGet, ID.into_option, h1, h2,
        runFetch, ID.authorative]
  | Authorative s =>
      have h1 : s ≠ U64_MIN := by
        intro h; rw [h] at hvalid; simp [ID.valid] at hvalid
      have h2 : s ≠ U64_MAX := by
        intro h; rw [h] at hvalid; simp [ID.valid, hmm] at hvalid
      simp [sqliteStandardGet, postgresStandardGet, ID.into_option, h1, h2,
        runFetch, ID.authorative]
  | Mutual l a =>
      simp [sqliteStandardGet, postgresStandardGet, ID.into_option,
        runFetch, ID.authorative]

theorem c6_standard_get_witness :
    ID.valid false (ID.Authorative 9) = Except.ok true
    ∧ ((sqliteStandardGet (α := Nat) false true
          (fun _ _ => .failure .rowNotFound) "models" (ID.Authorative 9)
            = .result (Except.ok none))
      ∧ (sqliteStandardGet (α := Nat) false true
          (fun _ _ => .failure (.other "disk I/O error")) "models" (ID.Authorative 9)
            = .result (Except.error (Error.Database "disk I/O error")))
      ∧ ((ID.authorative (ID.Authorative 9)).isSome →
          (postgresStandardGet (α := Nat) false true
              (fun _ _ => .failure .rowNotFound) "models" (ID.Authorative 9)
                = .result (Except.ok none))
          ∧ (postgresStandardGet (α := Nat) false true
              (fun _ _ => .failure (.other "disk I/O error")) "models" (ID.Authorative 9)
                = .result (Except.error (Error.Database "disk I/O error"))))) :=
  ⟨rfl,
    c6_standard_get_miss_and_error_mapping (ID.Authorative 9) "models"
      "disk I/O error" rfl⟩

/-- `imprint_sql_dataset_for_model` (`imprint.rs` lines 165-167):
`dataset_get_mut` for a SQL tier is
`unimplemented!("SQL datasets do not support mutable access")` — an
unconditional panic (message as produced by `unimplemented!`), not an error
`Result`. -/
def sql_dataset_get_mut (α : Type) (_id : ID) : Outcome (Option α) :=
  .panics "not implemented: SQL datasets do not support mutable access"

/-- Claim C9, counterexample: calling `dataset_get_mut` on a SQL tier at the
concrete id `Local(5)` produces a panic, not an "unsupported operation"
error result — the `Error` enum (`error.rs` lines 4-8) has no such variant,
only `Database(String)`. -/
theorem c9_get_mut_counterexample :
    sql_dataset_get_mut Nat (ID.Local 5)
      = Outcome.panics "not implemented: SQL datasets do not support mutable access" := by
  rfl

/-- Claim C9 (corrected): for every SQL-tier dataset and every id,
`dataset_get_mut` fails immediately and explicitly — but via an
`unimplemented!` panic carrying the message "SQL datasets do not support
mutable access", never via an error `Result` (and it cannot be an
"unsupported operation" error kind: every `Error` value is `Database`). -/
theorem c9_get_mut_amended (α : Type) (id : ID) :
    sql_dataset_get_mut α id
      = Outcome.panics "not implemented: SQL datasets do not support mutable access"
    ∧ (∀ r : DResult (Option α), sql_dataset_get_mut α id ≠ Outcome.result r)
    ∧ (∀ e : Error, ∃ s, e = Error.Database s) := by
  refine ⟨rfl, ?_, ?_⟩
  · intro r h
    exact Outcome.noConfusion h
  · intro e
    cases e with
    | Database s => exact ⟨s, rfl⟩

/-- `DatasetType` (`src/dataset/src/dataset/strategy.rs` lines 36-43). -/
inductive DatasetType where
  | none
  | memory
  | sqlite
  | backend
  | postgres
deriving DecidableEq, Repr

/-- `StrategicDatasetOptions` (`strategy.rs` lines 47-51). The source's
`StrategicOrder` is `[DatasetType; 4]`, a fixed array iterated in order;
modelled as the list of its elements. -/
structure StrategicDatasetOptions where
  online : Bool
  strategic_order : List DatasetType

/-- `StrategicDataset` (`strategy.rs` lines 25-34) specialised to a model
type `α`. Each SQL tier slot holds that tier's `dataset_get` behaviour for
`α` (for the macro-generated models this is `standard_get` applied to the
tier's pool — see `sqliteStandardGet`/`postgresStandardGet`). -/
structure StrategicDataset (α : Type) where
  options : StrategicDatasetOptions
  memory_dataset : Option (MemoryStore α)
  sqlite_dataset : Option (ID → Outcome (Option α))
  postgres_dataset : Option (ID → Outcome (Option α))

/-- The loop body of `dataset_get` in `imprint_strategic_dataset_for_model`
(`src/dataset/src/macros/imprint.rs` lines 11-44), arm for arm:
* `Memory`: `as_ref().unwrap()` (panics when absent), delegate, `?`
  propagates an error, return on `Some`, fall through on `None`;
* `Sqlite`/`Postgres`: skipped entirely when the tier slot is empty,
  otherwise delegate with the same `?`/`Some`/`None` handling;
* `None`: `break` out of the loop, reaching the trailing `Ok(None)`;
* any other type: `panic!("Unsupported dataset type: ...")`;
* order exhausted: the trailing `Ok(None)`. -/
def strategic_get_go {α : Type} (ds : StrategicDataset α) (id : ID) :
    List DatasetType → Outcome (Option α)
  | [] => .result (Except.ok none)
  | t :: rest =>
    match t with
    | .memory =>
        match ds.memory_dataset with
        | Option.none => .panics "called `Option::unwrap()` on a `None` value"
        | Option.some mem =>
            match memory_dataset_get mem id with
            | Except.error e => .result (Except.error e)
            | Except.ok (Option.some m) => .result (Except.ok (some m))
            | Except.ok Option.none => strategic_get_go ds id rest
    | .sqlite =>
        match ds.sqlite_dataset with
        | Option.none => strategic_get_go ds id rest
        | Option.some f =>
            match f id with
            | .panics m => .panics m
            | .result (Except.error e) => .result (Except.error e)
            | .result (Except.ok (Option.some m)) => .result (Except.ok (some m))
            | .result (Except.ok Option.none) => strategic_get_go ds id rest
    | .postgres =>
        match ds.postgres_dataset with
        | Option.none => strategic_get_go ds id rest
        | Option.some f =>
            match f id with
            | .panics m => .panics m
            | .result (Except.error e) => .result (Except.error e)
            | .result (Except.ok (Option.some m)) => .result (Except.ok (some m))
            | .result (Except.ok Option.none) => strategic_get_go ds id rest
    | .none => .result (Except.ok none)
    | .backend => .panics "Unsupported dataset type: Backend"

/-- `dataset_get` of `imprint_strategic_dataset_for_model` (`imprint.rs`
lines 11-44): iterate `options.strategic_order`. The Rust method borrows
the dataset immutably (`&'d StrategicDataset`), so it cannot and does not
modify any tier; only the lookup result is produced. -/
def strategic_dataset_get {α : Type} (ds : StrategicDataset α) (id : ID) :
    Outcome (Option α) :=
  strategic_get_go ds id ds.options.strategic_order

/-- The per-tier consulted result used by the spec-side cascade: `none`
when the tier slot is not configured (the cascade skips it), otherwise the
tier's `get` result. `rs`/`rp` abstract the SQL tiers' results. -/
def tierResults {α : Type} (ds : StrategicDataset α) (id : ID)
    (rs rp : DResult (Option α)) : DatasetType → Option (DResult (Option α))
  | .memory => ds.memory_dataset.map (fun mem => memory_dataset_get mem id)
  | .sqlite => ds.sqlite_dataset.map (fun _ => rs)
  | .postgres => ds.postgres_dataset.map (fun _ => rp)
  | _ => Option.none

/-- Spec-side cascade, written from the spec's §4.6 words for the
refinement comparison: "iterate tiers in configured order; for each present
tier, delegate `get`; stop and return on the first `Some(entity)`; continue
past a tier that returns `None`"; a tier error is returned as is ("only a
clean miss advances the cascade"); a `None` sentinel entry terminates; "if
the order is exhausted without a hit, return `Ok(None)`". -/
def cascadeSpec {α : Type} (tiers : DatasetType → Option (DResult (Option α))) :
    List DatasetType → DResult (Option α)
  | [] => Except.ok none
  | t :: rest =>
    match t with
    | .none => Except.ok none
    | _ =>
        match tiers t with
        | Option.none => cascadeSpec tiers rest
        | Option.some (Except.error e) => Except.error e
        | Option.some (Except.ok (Option.some m)) => Except.ok (some m)
        | Option.some (Except.ok Option.none) => cascadeSpec tiers rest

theorem strategic_go_eq_cascadeSpec {α : Type} (ds : StrategicDataset α)
    (id : ID) (rs rp : DResult (Option α)) :
    ∀ order : List DatasetType,
      (DatasetType.memory ∈ order → ds.memory_dataset.isSome) →
      DatasetType.backend ∉ order →
      (∀ f, ds.sqlite_dataset = some f → f id = .result rs) →
      (∀ f, ds.postgres_dataset = some f → f id = .result rp) →
      strategic_get_go ds id order
        = .result (cascadeSpec (tierResults ds id rs rp) order)
  | [], _, _, _, _ => rfl
  | t :: rest, hmem, hback, hsql, hpg => by
    have ihrest : strategic_get_go ds id rest
        = .result (cascadeSpec (tierResults ds id rs rp) rest) :=
      strategic_go_eq_cascadeSpec ds id rs rp rest
        (fun h => hmem (List.mem_cons_of_mem _ h))
        (fun h => hback (List.mem_cons_of_mem _ h)) hsql hpg
    cases t with
    | none => rfl
    | memory =>
        obtain ⟨mem, hm⟩ :=
          Option.isSome_iff_exists.mp (hmem (List.mem_cons_self _ _))
        cases hget : mapGet mem.entries id with
        | none =>
            simpa [strategic_get_go, cascadeSpec, tierResults, hm,
              memory_dataset_get, hget] using ihrest
        | some m =>
            simp [strategic_get_go, cascadeSpec, tierResults, hm,
              memory_dataset_get, hget]
    | sqlite =>
        cases hs : ds.sqlite_dataset with
        | none => simpa [strategic_get_go, cascadeSpec, tierResults, hs] using ihrest
        | some f =>
            have hf := hsql f hs
            cases rs with
            | error e => simp [strategic_get_go, cascadeSpec, tierResults, hs, hf]
            | ok o =>
                cases o with
                | none =>
                    simpa [strategic_get_go, cascadeSpec, tierResults, hs, hf]
                      using ihrest
                | some m => simp [strategic_get_go, cascadeSpec, tierResults, hs, hf]
    | postgres =>
        cases hs : ds.postgres_dataset with
        | none => simpa [strategic_get_go, cascadeSpec, tierResults, hs] using ihrest
        | some f =>
            have hf := hpg f hs
            cases rp with
            | error e => simp [strategic_get_go, cascadeSpec, tierResults, hs, hf]
            | ok o =>
                cases o with
                | none =>
                    simpa [strategic_get_go, cascadeSpec, tierResults, hs, hf]
                      using ihrest
                | some m => simp [strategic_get_go, cascadeSpec, tierResults, hs, hf]
    | backend => exact absurd (List.mem_cons_self _ _) hback

/-- Claim C2 (confirmed): whenever the configuration does not trip a fatal
error (a Memory entry has its tier present, no unsupported `Backend` entry)
and the consulted SQL tiers return results rather than panicking, the
strategic `dataset_get` equals the spec-side cascade: tiers are consulted
strictly in `strategic_order`, the first `Some` wins, a tier's `Database`
error is returned immediately (only a clean miss advances), a `None`
sentinel entry stops the scan, and an exhausted order yields `Ok(None)`. -/
theorem c2_cascade_order_first_hit_error_stops {α : Type}
    (ds : StrategicDataset α) (id : ID) (rs rp : DResult (Option α))
    (hmem : DatasetType.memory ∈ ds.options.strategic_order → ds.memory_dataset.isSome)
    (hback : DatasetType.backend ∉ ds.options.strategic_order)
    (hsql : ∀ f, ds.sqlite_dataset = some f → f id = .result rs)
    (hpg : ∀ f, ds.postgres_dataset = some f → f id = .result rp) :
    strategic_dataset_get ds id
      = .result (cascadeSpec (tierResults ds id rs rp) ds.options.strategic_order) :=
  strategic_go_eq_cascadeSpec ds id rs rp ds.options.strategic_order hmem hback hsql hpg


/-- Concrete fixture for the C2 witness: order `[Memory, Sqlite, None,
None]`, empty Memory tier, SQLite tier answering every get with entity
`42`, no Postgres tier. -/
def c2FixtureDS : StrategicDataset Nat where
  options := { online := false,
               strategic_order := [DatasetType.memory, DatasetType.sqlite,
                                   DatasetType.none, DatasetType.none] }
  memory_dataset := some ⟨[]⟩
  sqlite_dataset := some (fun _ => Outcome.result (Except.ok (some 42)))
  postgres_dataset := none

theorem c2_cascade_witness :
    strategic_dataset_get c2FixtureDS (ID.Local 101)
      = Outcome.result (cascadeSpec
          (tierResults c2FixtureDS (ID.Local 101) (Except.ok (some 42)) (Except.ok none))
          c2FixtureDS.options.strategic_order) :=
  c2_cascade_order_first_hit_error_stops c2FixtureDS (ID.Local 101)
    (Except.ok (some 42)) (Except.ok none)
    (fun _ => rfl) (by decide)
    (fun f h => by cases h; rfl)
    (fun f h => Option.noConfusion h)

/-- Claim C1 (corrected): when a strategic `get` misses Memory and hits the
SQL tier next in order, the hit is returned as is — but NOTHING is written
into the Memory tier. `dataset_get` borrows the `StrategicDataset` through
a shared reference (`&'d StrategicDataset`) and performs no writes, so the
dataset after the call is the very same `ds`; a subsequent direct get on
its Memory tier alone still returns `None`. (The promotion write exists
only in the separate, unfinished `dataset_get_mut` path, which ends in
`todo!()`.) -/
theorem c1_strategic_get_no_promotion {α : Type} (ds : StrategicDataset α)
    (id : ID) (e : α) (mem : MemoryStore α) (f : ID → Outcome (Option α))
    (rest : List DatasetType)
    (horder : ds.options.strategic_order
      = DatasetType.memory :: DatasetType.sqlite :: rest)
    (hmem : ds.memory_dataset = some mem)
    (hmiss : mapGet mem.entries id = none)
    (hsql : ds.sqlite_dataset = some f)
    (hhit : f id = Outcome.result (Except.ok (some e))) :
    strategic_dataset_get ds id = Outcome.result (Except.ok (some e))
    ∧ memory_dataset_get mem id = Except.ok none := by
  constructor
  · simp [strategic_dataset_get, horder, strategic_get_go, hmem,
      memory_dataset_get, hmiss, hsql, hhit]
  · simp [memory_dataset_get, hmiss]

/-- Concrete fixture for the C1 theorems: order `[Memory, Sqlite, None,
None]`, empty Memory tier, SQLite tier whose `standard_get` finds a row
and yields entity `42` for every query, no Postgres tier. -/
def c1FixtureDS : StrategicDataset Nat where
  options := { online := false,
               strategic_order := [DatasetType.memory, DatasetType.sqlite,
                                   DatasetType.none, DatasetType.none] }
  memory_dataset := some ⟨[]⟩
  sqlite_dataset := some (fun i =>
    sqliteStandardGet false true (fun _ _ => FetchResult.row 42) "models" i)
  postgres_dataset := none

theorem c1_no_promotion_witness :
    strategic_dataset_get c1FixtureDS (ID.Local 101)
      = Outcome.result (Except.ok (some 42))
    ∧ memory_dataset_get (⟨[]⟩ : MemoryStore Nat) (ID.Local 101) = Except.ok none :=
  c1_strategic_get_no_promotion c1FixtureDS (ID.Local 101) 42 ⟨[]⟩ _
    [DatasetType.none, DatasetType.none] rfl rfl rfl rfl rfl

/-- Claim C1, counterexample: on `c1FixtureDS` — a `StrategicDataset`
ordered `[Memory, SQLite]` whose Memory tier is empty and whose SQLite tier
holds the entity — the single `get(Local(101))` call returns the SQLite hit
`42`, yet the Memory tier (unchanged: `dataset_get` takes a shared borrow
and writes nothing) still misses on a subsequent direct get. No promotion
write happened, refuting the claim. -/
theorem c1_promotion_counterexample :
    strategic_dataset_get c1FixtureDS (ID.Local 101)
      = Outcome.result (Except.ok (some 42))
    ∧ memory_dataset_get (⟨[]⟩ : MemoryStore Nat) (ID.Local 101) = Except.ok none := by
  exact ⟨rfl, rfl⟩
